import Mathlib

/-!
Verification of the configuration-module core of the repository
(`src/lib/config.module.ts`): the startup merge pipeline (`forRoot`), the
env-file loader (`loadEnvFile`), the dynamic-file loader
(`loadDynamicFile`), the process-environment sync
(`assignVariablesToProcess`), schema-validation option defaults
(`getSchemaValidationOptions`), and the live-reload watcher callbacks
registered in the `ConfigModule` constructor.

Modelling conventions:
- JavaScript values read from JSON are modelled by the inductive `Json`
  (numbers as `Int`; the claims under study do not depend on non-integer
  numeric behaviour).
- JavaScript plain objects (`Record<string, any>`) are modelled as
  association lists `Config := List (String × Json)` with unique keys in
  practice; observable semantics is `List.lookup` (first binding wins).
  Object spread `\x7b...a, ...b\x7d` is `spread a b` (b overrides a), and
  property assignment `o[k] = v` is `setKey o k v`.
- `fs.existsSync` / `fs.readFileSync` are modelled by a `FileSys` record;
  `readFileSync` may fail (`Except`), which models a thrown exception.
- `dotenv.parse` (total on strings) and `JSON.parse` (may throw) are
  abstract parameters `dotenvParse : String → Config` and
  `jsonParse : String → Except String Json`; `dotenv-expand` is the
  abstract `expandFn : Config → Option Config`.
- A thrown JavaScript exception is `Except.error`; a function that cannot
  throw returns a plain value.
-/

namespace NestConfig

/-- JSON values / JavaScript data reachable from parsed JSON.
Numbers are modelled as `Int`. -/
inductive Json where
  | null : Json
  | bool (b : Bool) : Json
  | num (n : Int) : Json
  | str (s : String) : Json
  | arr (items : List Json) : Json
  | obj (fields : List (String × Json)) : Json

/-- A JavaScript plain object, as an association list; lookup of the first
binding models property access. -/
abbrev Config := List (String × Json)

/-- JavaScript truthiness of a `Json` value: `null`, `false`, `0` and the
empty string are falsy; every object and array is truthy. -/
def truthy : Json → Bool
  | Json.null => false
  | Json.bool b => b
  | Json.num n => n != 0
  | Json.str s => s != ""
  | Json.arr _ => true
  | Json.obj _ => true

/-- The optional-chained property access `json?.data`: defined only when
the value is an object with a `data` field (property access on primitives
and arrays yields `undefined`, and `null?.data` is `undefined`). -/
def getData : Json → Option Json
  | Json.obj fields => List.lookup "data" fields
  | _ => none

/-- Own enumerable string-keyed properties contributed by a value under
object spread: objects contribute their fields, arrays and strings their
index-keyed elements, primitives nothing. -/
def jsonFields : Json → Config
  | Json.obj fields => fields
  | Json.arr items => items.enum.map (fun p => (toString p.1, p.2))
  | Json.str s => s.toList.enum.map (fun p => (toString p.1, Json.str (toString p.2)))
  | _ => []

/-- Object spread `\x7b...a, ...b\x7d` / `Object.assign(a, b)` result:
`b`'s bindings override `a`'s. Represented so that `List.lookup` finds
`b`'s binding first and falls back to `a`'s. -/
def spread (a b : Config) : Config :=
  b ++ a.filter (fun kv => (List.lookup kv.1 b).isNone)

/-- JavaScript property assignment `o[k] = v`: replaces the first binding
of `k`, or appends a new binding when absent. -/
def setKey : Config → String → Json → Config
  | [], k, v => [(k, v)]
  | (k', v') :: rest, k, v =>
    if k' == k then (k, v) :: rest else (k', v') :: setKey rest k v

/-- The file-system operations used by the module: `fs.existsSync` and
`fs.readFileSync` (the latter throws on an unreadable path, modelled by
`Except.error`). -/
structure FileSys where
  existsSync : String → Bool
  readFileSync : String → Except String String

/-- The `envFilePath` option: a string array, a single string, or not
given (`undefined`). -/
inductive EnvFilePathOpt where
  | pathList (paths : List String) : EnvFilePathOpt
  | single (path : String) : EnvFilePathOpt
  | notGiven : EnvFilePathOpt

/-- Joi-style validation options; `none` in a field models an `undefined`
property. -/
structure JoiOptions where
  abortEarly : Option Bool := none
  allowUnknown : Option Bool := none

/-- The `\x7berror, value\x7d` record returned by
`validationSchema.validate` (a Joi-style validator does not throw; a
failure is reported through `error`, carrying its message). -/
structure SchemaResult where
  error : Option String
  value : Config

/-- A validation schema: invoked as `schema.validate(config, options)`. -/
abbrev Schema := Config → JoiOptions → SchemaResult

/-- `ConfigModuleOptions` (the fields consumed by the code under study;
`load`, `cache` and `isGlobal` only feed the dependency-injection wiring,
which is out of scope of the claims). `validate` is a custom validation
function that may throw. -/
structure ConfigModuleOptions where
  ignoreEnvFile : Bool := false
  ignoreEnvVars : Bool := false
  envFilePath : EnvFilePathOpt := EnvFilePathOpt.notGiven
  expandVariables : Bool := false
  dynamicConfigPath : Option String := none
  validate : Option (Config → Except String Config) := none
  validationSchema : Option Schema := none
  validationOptions : Option JoiOptions := none

/-- The default env-file path `resolve(process.cwd(), '.env')`; the
concrete working directory is irrelevant to the claims, so it is a fixed
abstract path. -/
def defaultEnvFilePath : String := "/cwd/.env"

/-- Path resolution at the top of `loadEnvFile`:
`Array.isArray(options.envFilePath) ? options.envFilePath :
[options.envFilePath || resolve(process.cwd(), '.env')]` (an empty-string
path is falsy, hence replaced by the default). -/
def resolveEnvFilePaths (options : ConfigModuleOptions) : List String :=
  match options.envFilePath with
  | EnvFilePathOpt.pathList paths => paths
  | EnvFilePathOpt.single path =>
    if path == "" then [defaultEnvFilePath] else [path]
  | EnvFilePathOpt.notGiven => [defaultEnvFilePath]

/-- The `for (const envFilePath of envFilePaths)` accumulation loop of
`loadEnvFile`: for each existing path, `config =
Object.assign(dotenv.parse(fs.readFileSync(envFilePath)), config)` (the
accumulated earlier-files config overrides the newly parsed file), then
optional `dotenv-expand`. A read failure is not caught and propagates. -/
def loadEnvFileGo (fsx : FileSys) (dotenvParse : String → Config)
    (expandFn : Config → Option Config) (expandVariables : Bool) :
    List String → Config → Except String Config
  | [], config => Except.ok config
  | p :: rest, config =>
    if fsx.existsSync p then
      match fsx.readFileSync p with
      | Except.error e => Except.error e
      | Except.ok content =>
        let merged := spread (dotenvParse content) config
        let merged :=
          if expandVariables then (expandFn merged).getD merged else merged
        loadEnvFileGo fsx dotenvParse expandFn expandVariables rest merged
    else loadEnvFileGo fsx dotenvParse expandFn expandVariables rest config

/-- `ConfigModule.loadEnvFile`. -/
def loadEnvFile (fsx : FileSys) (dotenvParse : String → Config)
    (expandFn : Config → Option Config) (options : ConfigModuleOptions) :
    Except String Config :=
  loadEnvFileGo fsx dotenvParse expandFn options.expandVariables
    (resolveEnvFilePaths options) []

/-- `ConfigModule.loadDynamicFile`: guard
`if (dynamicConfigPath && fs.existsSync(dynamicConfigPath))` (an
empty-string path is falsy), then `fs.readFileSync` OUTSIDE the
`try` (a read failure propagates), then inside the `try`:
`const json = JSON.parse(fileContent); const variables = json?.data || json;
if (variables) return variables;` with `catch (e) \x7b\x7d` swallowing
only the parse failure, and `return \x7b\x7d` otherwise. -/
def loadDynamicFile (fsx : FileSys) (jsonParse : String → Except String Json)
    (dynamicConfigPath : Option String) : Except String Json :=
  match dynamicConfigPath with
  | some p =>
    if (p != "") && fsx.existsSync p then
      match fsx.readFileSync p with
      | Except.error e => Except.error e
      | Except.ok fileContent =>
        Except.ok (match jsonParse fileContent with
          | Except.error _ => Json.obj []
          | Except.ok json =>
            let vars := match getData json with
              | some d => if truthy d then d else json
              | none => json
            if truthy vars then vars else Json.obj [])
    else Except.ok (Json.obj [])
  | none => Except.ok (Json.obj [])

/-- `ConfigModule.assignVariablesToProcess`: collects
`Object.keys(config)` not already present in `process.env` and assigns
each of them there. (The `isObject` guard of the source is vacuous here
because the argument type already restricts to objects.) -/
def assignVariablesToProcess (config : Config) (env : Config) : Config :=
  let keys := (config.map Prod.fst).filter
    (fun k => (List.lookup k env).isNone)
  keys.foldl (fun e k => setKey e k ((List.lookup k config).getD Json.null)) env

/-- `ConfigModule.getSchemaValidationOptions`: user-supplied options are
returned with `allowUnknown` defaulted to `true` when undefined; with no
user options the defaults are `abortEarly: false, allowUnknown: true`. -/
def getSchemaValidationOptions (options : ConfigModuleOptions) : JoiOptions :=
  match options.validationOptions with
  | some validationOptions =>
    if validationOptions.allowUnknown = none then
      { validationOptions with allowUnknown := some true }
    else validationOptions
  | none => { abortEarly := some false, allowUnknown := some true }

/-- The spread merge of `forRoot` lines 48–52:
`config = \x7b...config, ...process.env, ...dynamicConfig\x7d` — process
environment overrides env-file config, dynamic config overrides both. -/
def mergeStartup (envConfig procEnv : Config) (dynJson : Json) : Config :=
  spread (spread envConfig procEnv) (jsonFields dynJson)

/-- Line 45 of `forRoot`:
`options.ignoreEnvFile ? \x7b\x7d : this.loadEnvFile(options)`. -/
def startupEnvConfig (fsx : FileSys) (dotenvParse : String → Config)
    (expandFn : Config → Option Config) (options : ConfigModuleOptions) :
    Except String Config :=
  if options.ignoreEnvFile then Except.ok []
  else loadEnvFile fsx dotenvParse expandFn options

/-- The observable outcome of a successful `forRoot` call: the merged
startup config, the validated snapshot that the `VALIDATED_ENV_LOADER`
provider will install on the configuration host (absent when no
validation was configured), and the process environment after
`assignVariablesToProcess`. -/
structure ForRootResult where
  config : Config
  validatedEnvConfig : Option Config
  procEnv : Config

/-- `ConfigModule.forRoot` (the configuration pipeline of lines 43–72:
env-file load, dynamic-file load, precedence merge, validation gate,
process-environment sync). A thrown exception — a propagated read error
or `throw new Error('Config validation error: ...')` — is `Except.error`,
in which case nothing is committed. -/
def forRoot (fsx : FileSys) (dotenvParse : String → Config)
    (expandFn : Config → Option Config)
    (jsonParse : String → Except String Json) (procEnv : Config)
    (options : ConfigModuleOptions) : Except String ForRootResult :=
  match startupEnvConfig fsx dotenvParse expandFn options with
  | Except.error e => Except.error e
  | Except.ok envConfig =>
    match loadDynamicFile fsx jsonParse options.dynamicConfigPath with
    | Except.error e => Except.error e
    | Except.ok dynJson =>
      let config :=
        if options.ignoreEnvVars then envConfig
        else mergeStartup envConfig procEnv dynJson
      match options.validate with
      | some f =>
        match f config with
        | Except.error e => Except.error e
        | Except.ok validatedConfig =>
          Except.ok { config := config
                      validatedEnvConfig := some validatedConfig
                      procEnv := assignVariablesToProcess validatedConfig procEnv }
      | none =>
        match options.validationSchema with
        | some schema =>
          let validationOptions := getSchemaValidationOptions options
          let result := schema config validationOptions
          match result.error with
          | some msg =>
            Except.error ("Config validation error: " ++ msg)
          | none =>
            Except.ok { config := config
                        validatedEnvConfig := some result.value
                        procEnv := assignVariablesToProcess result.value procEnv }
        | none =>
          Except.ok { config := config
                      validatedEnvConfig := none
                      procEnv := assignVariablesToProcess config procEnv }

/-- Modelled from the spec: `VALIDATED_ENV_PROPNAME` is imported from
`./config.constants`, a file not present under `src/`; the spec describes
it as the host's "reserved key distinct from the general namespaces" under
which the Validated Config Snapshot is stored. Its concrete text is
irrelevant to the claims; it is modelled as a fixed reserved key. -/
def VALIDATED_ENV_PROPNAME : String := "_PROCESS_ENV_VALIDATED"

/-- The message of the `TypeError` JavaScript throws for
`Object.assign(undefined, ...)` or `Object.assign(null, ...)`. -/
def typeErrorUndefined : String :=
  "TypeError: Cannot convert undefined or null to object"

/-- `Object.assign(target, source)` as used by the watcher callbacks,
where `target` is the value stored under the snapshot key: throws on
`null` (and the `undefined` case is handled by the caller); merges
`source`'s own enumerable properties into an object target; on a
primitive target the assignment lands on a transient wrapper object, so
the stored value is unchanged. -/
def objectAssignJson (target source : Json) : Except String Json :=
  match target with
  | Json.null => Except.error typeErrorUndefined
  | Json.obj fields => Except.ok (Json.obj (spread fields (jsonFields source)))
  | t => Except.ok t

/-- The filesystem events the `ConfigModule` constructor registers
handlers for (`add` and `change`); any other chokidar event has no
handler. -/
inductive WatchEvent where
  | add (path : String) : WatchEvent
  | change (path : String) : WatchEvent
  | unlink (path : String) : WatchEvent

/-- The watcher callback registered in the `ConfigModule` constructor: on
`add` or `change`, `const newConfig = ConfigModule.loadDynamicFile(path);
Object.assign(this.internalConfig[VALIDATED_ENV_PROPNAME], newConfig)`.
`host` is the injected `internalConfig` record; the result is the host
after the event (`Except.error` when the callback throws: a propagated
read error, or the `TypeError` when the snapshot key is absent). Events
without a handler leave the host untouched. -/
def onWatchEvent (fsx : FileSys) (jsonParse : String → Except String Json)
    (host : Config) : WatchEvent → Except String Config
  | WatchEvent.add p | WatchEvent.change p =>
    match loadDynamicFile fsx jsonParse (some p) with
    | Except.error e => Except.error e
    | Except.ok newConfig =>
      match List.lookup VALIDATED_ENV_PROPNAME host with
      | none => Except.error typeErrorUndefined
      | some snapshot =>
        match objectAssignJson snapshot newConfig with
        | Except.error e => Except.error e
        | Except.ok merged =>
          Except.ok (setKey host VALIDATED_ENV_PROPNAME merged)
  | WatchEvent.unlink _ => Except.ok host

/-- Specification-side description for claim C2: the value a key receives
from a list of env files is the one from the earliest-listed existing
file that defines it. (The read-error branch is unreachable whenever
`loadEnvFile` returns successfully.) -/
def firstEnvDef (fsx : FileSys) (dotenvParse : String → Config) :
    List String → String → Option Json
  | [], _ => none
  | p :: rest, k =>
    if fsx.existsSync p then
      match fsx.readFileSync p with
      | Except.error _ => none
      | Except.ok content =>
        (List.lookup k (dotenvParse content)) <|>
          firstEnvDef fsx dotenvParse rest k
    else firstEnvDef fsx dotenvParse rest k

/-! Concrete scenarios used to evaluate the development on closed inputs.
`w…` definitions build small file systems, parsers and option records with
fully literal data. -/

/-- A file system with a dynamic file `dyn.json` and the default env
file. -/
def wFs : FileSys where
  existsSync := fun p => p == "dyn.json" || p == defaultEnvFilePath
  readFileSync := fun p =>
    if p == "dyn.json" then Except.ok "dyncontent"
    else if p == defaultEnvFilePath then Except.ok "envcontent"
    else Except.error "ENOENT"

/-- A concrete stand-in for `dotenv.parse`. -/
def wDotenvParse : String → Config := fun content =>
  if content == "envcontent" then
    [("PORT", Json.str "1"), ("HOST", Json.str "h")]
  else []

/-- A concrete stand-in for `dotenv-expand` (no expansion result). -/
def wExpandFn : Config → Option Config := fun _ => none

/-- A concrete stand-in for `JSON.parse`. -/
def wJsonParse : String → Except String Json := fun content =>
  if content == "dyncontent" then
    Except.ok (Json.obj [("PORT", Json.num 9)])
  else Except.error "SyntaxError"

/-- A concrete process environment. -/
def wProcEnv : Config := [("PATH", Json.str "/bin"), ("PORT", Json.str "5")]

/-- Options selecting the dynamic file, everything else defaulted. -/
def wOpts : ConfigModuleOptions := { dynamicConfigPath := some "dyn.json" }

/-- The env-file config loaded in the `wFs` scenario. -/
def wE : Config := [("PORT", Json.str "1"), ("HOST", Json.str "h")]

/-- The dynamic-file config loaded in the `wFs` scenario. -/
def wD : Config := [("PORT", Json.num 9)]

/-- The `forRoot` outcome in the `wFs` scenario with `wOpts`. -/
def wR : ForRootResult where
  config := [("PORT", Json.num 9), ("PATH", Json.str "/bin"),
    ("HOST", Json.str "h")]
  validatedEnvConfig := none
  procEnv := [("PATH", Json.str "/bin"), ("PORT", Json.str "5"),
    ("HOST", Json.str "h")]

/-- Options as `wOpts` but ignoring process env vars. -/
def wOpts10 : ConfigModuleOptions :=
  { ignoreEnvVars := true, dynamicConfigPath := some "dyn.json" }

/-- The `forRoot` outcome in the `wFs` scenario with `wOpts10`. -/
def wR10 : ForRootResult where
  config := wE
  validatedEnvConfig := none
  procEnv := [("PATH", Json.str "/bin"), ("PORT", Json.str "5"),
    ("HOST", Json.str "h")]

/-- A schema rejecting every config with a fixed message. -/
def wSchema : Schema := fun _ _ =>
  { error := some "X is required", value := [] }

/-- Options as `wOpts` plus the rejecting schema. -/
def wOpts6 : ConfigModuleOptions :=
  { dynamicConfigPath := some "dyn.json", validationSchema := some wSchema }

/-- Two env files with an overlapping key `K`. -/
def wFs2 : FileSys where
  existsSync := fun p => p == "f1" || p == "f2"
  readFileSync := fun p =>
    if p == "f1" then Except.ok "c1"
    else if p == "f2" then Except.ok "c2"
    else Except.error "ENOENT"

/-- The parses of the two env files of `wFs2`. -/
def wDotenvParse2 : String → Config := fun content =>
  if content == "c1" then [("K", Json.str "a"), ("X", Json.str "x")]
  else if content == "c2" then [("K", Json.str "b"), ("Y", Json.str "y")]
  else []

/-- Options listing the two env files of `wFs2` in order. -/
def wOpts2 : ConfigModuleOptions :=
  { envFilePath := EnvFilePathOpt.pathList ["f1", "f2"] }

/-- The merged env config of the `wFs2` scenario. -/
def wCfg2 : Config :=
  [("K", Json.str "a"), ("X", Json.str "x"), ("Y", Json.str "y")]

/-- A config whose keys partly collide with `wEnv5`. -/
def wCfg5 : Config := [("A", Json.str "cfgA"), ("B", Json.str "cfgB")]

/-- A process environment already defining `A`. -/
def wEnv5 : Config := [("A", Json.str "envA")]

/-- A file system whose only existing path is unreadable (e.g. a
permission error or a directory path passing `existsSync`). -/
def cexFs3 : FileSys where
  existsSync := fun p => p == "cfg.json"
  readFileSync := fun _ => Except.error "EACCES: permission denied"

/-- A parse stand-in (never reached in the `cexFs3` scenario). -/
def cexParse3 : String → Except String Json := fun _ => Except.ok Json.null

/-- Files for the amended C3 statement: a parse failure and a read
failure. -/
def wFs3 : FileSys where
  existsSync := fun p => p == "good.json" || p == "bad.json"
  readFileSync := fun p =>
    if p == "good.json" then Except.ok "notjson"
    else Except.error "EACCES"

/-- A parse stand-in failing on every content. -/
def wParse3 : String → Except String Json :=
  fun _ => Except.error "SyntaxError: Unexpected token"

/-- A file whose JSON has a `data` property holding `false`. -/
def cexFs4 : FileSys where
  existsSync := fun p => p == "cfg.json"
  readFileSync := fun _ => Except.ok "datafalse"

/-- The parse of the `cexFs4` file: `\x7b"data": false\x7d`. -/
def cexParse4 : String → Except String Json :=
  fun _ => Except.ok (Json.obj [("data", Json.bool false)])

/-- Files for the amended C4 statement: a `data`-wrapped object and a
bare `null`. -/
def wFs4 : FileSys where
  existsSync := fun p => p == "wrapped.json" || p == "nullfile.json"
  readFileSync := fun p =>
    if p == "wrapped.json" then Except.ok "wrapped"
    else Except.ok "nulltext"

/-- The parses of the `wFs4` files. -/
def wParse4 : String → Except String Json := fun content =>
  if content == "wrapped" then
    Except.ok (Json.obj [("data", Json.obj [("PORT", Json.num 8888)])])
  else Except.ok Json.null

/-- A host carrying a validated snapshot under the reserved key. -/
def wHost : Config :=
  [(VALIDATED_ENV_PROPNAME, Json.obj [("PORT", Json.num 8888)])]

/-- A host without the reserved snapshot key. -/
def wHost9 : Config := [("other", Json.str "x")]

/-- A dynamic file whose reload parses to a new `PORT`. -/
def wFs7 : FileSys where
  existsSync := fun p => p == "dyn.json"
  readFileSync := fun _ => Except.ok "dyn2"

/-- The parse of the reloaded `wFs7` file. -/
def wJsonParse7 : String → Except String Json := fun content =>
  if content == "dyn2" then Except.ok (Json.obj [("PORT", Json.num 9999)])
  else Except.error "bad"

/-- A dynamic file turned to garbage plus an unreadable path. -/
def wFs8 : FileSys where
  existsSync := fun p => p == "dyn.json" || p == "locked.json"
  readFileSync := fun p =>
    if p == "dyn.json" then Except.ok "garbage"
    else Except.error "EISDIR"

/-- A parse stand-in failing on every content. -/
def wJsonParse8 : String → Except String Json :=
  fun _ => Except.error "SyntaxError"

/-! Helper lemmas about lookups in association-list objects. -/

theorem lookup_append (k : String) (a b : Config) :
    List.lookup k (a ++ b) = (List.lookup k a <|> List.lookup k b) := by
  induction a with
  | nil => simp [List.lookup]
  | cons hd tl ih =>
    obtain ⟨k', v'⟩ := hd
    cases hk : (k == k') <;> simp [List.lookup, hk, ih]

theorem lookup_filter_notin (k : String) (a b : Config)
    (h : List.lookup k b = none) :
    List.lookup k (a.filter (fun kv => (List.lookup kv.1 b).isNone)) =
      List.lookup k a := by
  induction a with
  | nil => simp
  | cons hd tl ih =>
    obtain ⟨k', v'⟩ := hd
    by_cases hk : k = k'
    · subst hk
      simp [List.filter_cons, h, List.lookup]
    · have hb : (k == k') = false := beq_eq_false_iff_ne.mpr hk
      by_cases hp : (List.lookup k' b).isNone
      · simp [List.filter_cons, hp, List.lookup, hb, ih]
      · simp [List.filter_cons, hp, List.lookup, hb, ih]

theorem lookup_spread (k : String) (a b : Config) :
    List.lookup k (spread a b) = (List.lookup k b <|> List.lookup k a) := by
  unfold spread
  rw [lookup_append]
  cases hb : List.lookup k b with
  | some v => simp
  | none => simp [lookup_filter_notin k a b hb]

theorem lookup_setKey_self (c : Config) (k : String) (v : Json) :
    List.lookup k (setKey c k v) = some v := by
  induction c with
  | nil => simp [setKey, List.lookup]
  | cons hd tl ih =>
    obtain ⟨k', v'⟩ := hd
    by_cases hk : k' = k
    · subst hk
      simp [setKey, List.lookup]
    · have h1 : (k' == k) = false := beq_eq_false_iff_ne.mpr hk
      have h2 : (k == k') = false := beq_eq_false_iff_ne.mpr (Ne.symm hk)
      simp [setKey, h1, List.lookup, h2, ih]

theorem lookup_setKey_ne (c : Config) (k q : String) (v : Json)
    (h : q ≠ k) :
    List.lookup q (setKey c k v) = List.lookup q c := by
  induction c with
  | nil =>
    simp [setKey, List.lookup, beq_eq_false_iff_ne.mpr h]
  | cons hd tl ih =>
    obtain ⟨k', v'⟩ := hd
    by_cases hk : k' = k
    · subst hk
      simp [setKey, List.lookup, beq_eq_false_iff_ne.mpr h]
    · have h1 : (k' == k) = false := beq_eq_false_iff_ne.mpr hk
      cases hq : (q == k') <;> simp [setKey, h1, List.lookup, hq, ih]

theorem setKey_self_eq (c : Config) (k : String) (v : Json)
    (h : List.lookup k c = some v) : setKey c k v = c := by
  induction c with
  | nil => simp [List.lookup] at h
  | cons hd tl ih =>
    obtain ⟨k', v'⟩ := hd
    by_cases hk : k = k'
    · subst hk
      simp [List.lookup] at h
      simp [setKey, h]
    · have h1 : (k == k') = false := beq_eq_false_iff_ne.mpr hk
      have h2 : (k' == k) = false := beq_eq_false_iff_ne.mpr (Ne.symm hk)
      simp [List.lookup, h1] at h
      simp [setKey, h2, ih h]

theorem spread_nil (a : Config) : spread a [] = a := by
  simp [spread, List.lookup]

theorem orElse_assoc (a b c : Option Json) :
    ((a <|> b) <|> c) = (a <|> (b <|> c)) := by
  cases a <;> simp

/-! Lemmas about `assignVariablesToProcess`. -/

theorem avtp_foldl_preserve (config : Config) (k : String) (v : Json) :
    ∀ (ks : List String) (e : Config), (∀ k' ∈ ks, k' ≠ k) →
    List.lookup k e = some v →
    List.lookup k
      (ks.foldl
        (fun e k' => setKey e k' ((List.lookup k' config).getD Json.null)) e) =
      some v := by
  intro ks
  induction ks with
  | nil => intro e _ he; simpa using he
  | cons k' rest ih =>
    intro e hks he
    simp only [List.foldl_cons]
    refine ih _ (fun q hq => hks q (List.mem_cons_of_mem _ hq)) ?_
    rw [lookup_setKey_ne _ _ _ _ (Ne.symm (hks k' (List.mem_cons_self _ _)))]
    exact he

theorem avtp_foldl_stable (config : Config) (k : String) :
    ∀ (ks : List String) (e : Config),
    List.lookup k e = some ((List.lookup k config).getD Json.null) →
    List.lookup k
      (ks.foldl
        (fun e k' => setKey e k' ((List.lookup k' config).getD Json.null)) e) =
      some ((List.lookup k config).getD Json.null) := by
  intro ks
  induction ks with
  | nil => intro e he; simpa using he
  | cons k' rest ih =>
    intro e he
    simp only [List.foldl_cons]
    by_cases hk : k' = k
    · subst hk
      exact ih _ (lookup_setKey_self _ _ _)
    · refine ih _ ?_
      rw [lookup_setKey_ne _ _ _ _ (Ne.symm hk)]
      exact he

theorem avtp_foldl_mem (config : Config) (k : String) :
    ∀ (ks : List String) (e : Config), k ∈ ks →
    List.lookup k
      (ks.foldl
        (fun e k' => setKey e k' ((List.lookup k' config).getD Json.null)) e) =
      some ((List.lookup k config).getD Json.null) := by
  intro ks
  induction ks with
  | nil => intro e hmem; cases hmem
  | cons k' rest ih =>
    intro e hmem
    simp only [List.foldl_cons]
    by_cases hk : k' = k
    · subst hk
      exact avtp_foldl_stable config _ rest _ (lookup_setKey_self _ _ _)
    · have hrest : k ∈ rest := by
        cases hmem with
        | head => exact absurd rfl hk
        | tail _ h => exact h
      exact ih _ hrest

theorem mem_keys_of_lookup (c : Config) (k : String) (v : Json)
    (h : List.lookup k c = some v) : k ∈ c.map Prod.fst := by
  induction c with
  | nil => simp [List.lookup] at h
  | cons hd tl ih =>
    obtain ⟨k', v'⟩ := hd
    cases hk : (k == k') with
    | true =>
      have : k = k' := eq_of_beq hk
      subst this
      exact List.mem_cons_self _ _
    | false =>
      simp [List.lookup, hk] at h
      exact List.mem_cons_of_mem _ (ih h)

theorem avtp_preserves (config env : Config) (k : String) (v : Json)
    (h : List.lookup k env = some v) :
    List.lookup k (assignVariablesToProcess config env) = some v := by
  unfold assignVariablesToProcess
  refine avtp_foldl_preserve config k v _ env (fun q hq => ?_) h
  have hpred := (List.mem_filter.mp hq).2
  intro heq
  subst heq
  rw [h] at hpred
  simp at hpred

theorem avtp_sets (config env : Config) (k : String) (v : Json)
    (h : List.lookup k env = none) (hc : List.lookup k config = some v) :
    List.lookup k (assignVariablesToProcess config env) = some v := by
  unfold assignVariablesToProcess
  have hmem : k ∈ (config.map Prod.fst).filter
      (fun k => (List.lookup k env).isNone) :=
    List.mem_filter.mpr ⟨mem_keys_of_lookup config k v hc, by simp [h]⟩
  have := avtp_foldl_mem config k _ env hmem
  rwa [hc] at this

/-! The accumulation invariant of `loadEnvFileGo` (claim C2). -/

theorem loadEnvFileGo_lookup (fsx : FileSys) (dotenvParse : String → Config)
    (expandFn : Config → Option Config) (k : String)
    (paths : List String) (acc config : Config)
    (h : loadEnvFileGo fsx dotenvParse expandFn false paths acc =
      Except.ok config) :
    List.lookup k config =
      (List.lookup k acc <|> firstEnvDef fsx dotenvParse paths k) := by
  induction paths generalizing acc with
  | nil =>
    simp [loadEnvFileGo] at h
    subst h
    simp [firstEnvDef]
  | cons p rest ih =>
    by_cases hex : fsx.existsSync p
    · cases hrd : fsx.readFileSync p with
      | error e =>
        simp [loadEnvFileGo, hex, hrd] at h
      | ok content =>
        simp only [loadEnvFileGo, hex, if_true, hrd, if_false,
          Bool.false_eq_true, if_neg, ite_false] at h
        have step := ih (spread (dotenvParse content) acc) h
        rw [step, lookup_spread, firstEnvDef]
        simp only [hex, if_true, hrd]
        exact orElse_assoc _ _ _
    · simp only [loadEnvFileGo, hex, Bool.false_eq_true, if_false,
        ite_false] at h
      rw [ih acc h, firstEnvDef]
      simp [hex]

/-- C1: for every env-file config `E`, process environment `procEnv`, and
dynamic-file config `D`, the merged startup configuration produced by
`forRoot` assigns each key the value from the highest-precedence source
defining it, precedence low to high: env-file config, then process
environment, then dynamic config. -/
theorem C1_startup_merge_precedence (fsx : FileSys)
    (dotenvParse : String → Config) (expandFn : Config → Option Config)
    (jsonParse : String → Except String Json) (procEnv : Config)
    (options : ConfigModuleOptions) (E D : Config) (r : ForRootResult)
    (k : String)
    (hiv : options.ignoreEnvVars = false)
    (henv : startupEnvConfig fsx dotenvParse expandFn options = Except.ok E)
    (hdyn : loadDynamicFile fsx jsonParse options.dynamicConfigPath =
      Except.ok (Json.obj D))
    (hr : forRoot fsx dotenvParse expandFn jsonParse procEnv options =
      Except.ok r) :
    List.lookup k r.config =
      (List.lookup k D <|> (List.lookup k procEnv <|> List.lookup k E)) := by
  have hcfg : r.config = mergeStartup E procEnv (Json.obj D) := by
    cases hval : options.validate with
    | some f =>
      cases hf : f (mergeStartup E procEnv (Json.obj D)) with
      | error e =>
        simp [forRoot, henv, hdyn, hiv, hval, hf] at hr
      | ok vc =>
        simp [forRoot, henv, hdyn, hiv, hval, hf] at hr
        rw [← hr]
    | none =>
      cases hschema : options.validationSchema with
      | some schema =>
        cases herr : (schema (mergeStartup E procEnv (Json.obj D))
            (getSchemaValidationOptions options)).error with
        | some msg =>
          simp [forRoot, henv, hdyn, hiv, hval, hschema, herr] at hr
        | none =>
          simp [forRoot, henv, hdyn, hiv, hval, hschema, herr] at hr
          rw [← hr]
      | none =>
        simp [forRoot, henv, hdyn, hiv, hval, hschema] at hr
        rw [← hr]
  rw [hcfg]
  show List.lookup k (spread (spread E procEnv) (jsonFields (Json.obj D))) = _
  rw [lookup_spread, lookup_spread]
  rfl

/-- C2: for a list of env-file paths with overlapping keys (variable
expansion disabled), `loadEnvFile` gives each key the value from the
earliest-listed existing file defining it; later files only fill in
missing keys. -/
theorem C2_env_file_first_wins (fsx : FileSys)
    (dotenvParse : String → Config) (expandFn : Config → Option Config)
    (options : ConfigModuleOptions) (config : Config) (k : String)
    (hexp : options.expandVariables = false)
    (h : loadEnvFile fsx dotenvParse expandFn options = Except.ok config) :
    List.lookup k config =
      firstEnvDef fsx dotenvParse (resolveEnvFilePaths options) k := by
  unfold loadEnvFile at h
  rw [hexp] at h
  have step := loadEnvFileGo_lookup fsx dotenvParse expandFn k
    (resolveEnvFilePaths options) [] config h
  simpa using step

/-- C5: `assignVariablesToProcess` writes a key into the process
environment only when absent there; a key already present keeps its prior
value even when the config defines a different one, and an absent key
receives the config's value. -/
theorem C5_env_always_wins (config env : Config) (k : String) :
    (∀ v, List.lookup k env = some v →
      List.lookup k (assignVariablesToProcess config env) = some v) ∧
    (List.lookup k env = none → ∀ v, List.lookup k config = some v →
      List.lookup k (assignVariablesToProcess config env) = some v) :=
  ⟨fun v h => avtp_preserves config env k v h,
   fun h v hc => avtp_sets config env k v h hc⟩

/-- C6: with a validation schema and no explicit validation options, the
schema is invoked with `abortEarly: false, allowUnknown: true`; when
validation fails, `forRoot` throws an error carrying the validator's
message and commits nothing (the thrown `Except.error` means no
`ForRootResult` — neither snapshot install nor process-env sync — is
produced). -/
theorem C6_validation_gate (fsx : FileSys) (dotenvParse : String → Config)
    (expandFn : Config → Option Config)
    (jsonParse : String → Except String Json) (procEnv : Config)
    (options : ConfigModuleOptions) (schema : Schema) (E : Config)
    (dj : Json) (msg : String)
    (hval : options.validate = none)
    (hschema : options.validationSchema = some schema)
    (hopts : options.validationOptions = none)
    (hiv : options.ignoreEnvVars = false)
    (henv : startupEnvConfig fsx dotenvParse expandFn options = Except.ok E)
    (hdyn : loadDynamicFile fsx jsonParse options.dynamicConfigPath =
      Except.ok dj) :
    getSchemaValidationOptions options =
      { abortEarly := some false, allowUnknown := some true } ∧
    ((schema (mergeStartup E procEnv dj)
        { abortEarly := some false, allowUnknown := some true }).error =
          some msg →
      forRoot fsx dotenvParse expandFn jsonParse procEnv options =
        Except.error ("Config validation error: " ++ msg)) := by
  have hdef : getSchemaValidationOptions options =
      { abortEarly := some false, allowUnknown := some true } := by
    simp [getSchemaValidationOptions, hopts]
  refine ⟨hdef, fun herr => ?_⟩
  simp [forRoot, henv, hdyn, hiv, hval, hschema, hdef, herr]

/-- C10: with `ignoreEnvVars` set, the startup configuration produced by
`forRoot` is the env-file config alone — neither the process environment
nor the dynamic-file config is merged in, even when a dynamic file was
configured and loaded successfully. -/
theorem C10_ignore_env_vars (fsx : FileSys) (dotenvParse : String → Config)
    (expandFn : Config → Option Config)
    (jsonParse : String → Except String Json) (procEnv : Config)
    (options : ConfigModuleOptions) (E : Config) (dj : Json)
    (r : ForRootResult)
    (hiv : options.ignoreEnvVars = true)
    (hef : options.ignoreEnvFile = false)
    (henv : loadEnvFile fsx dotenvParse expandFn options = Except.ok E)
    (hdyn : loadDynamicFile fsx jsonParse options.dynamicConfigPath =
      Except.ok dj)
    (hr : forRoot fsx dotenvParse expandFn jsonParse procEnv options =
      Except.ok r) :
    r.config = E := by
  have henv' : startupEnvConfig fsx dotenvParse expandFn options =
      Except.ok E := by
    simp [startupEnvConfig, hef, henv]
  cases hval : options.validate with
  | some f =>
    cases hf : f E with
    | error e =>
      simp [forRoot, henv', hdyn, hiv, hval, hf] at hr
    | ok vc =>
      simp [forRoot, henv', hdyn, hiv, hval, hf] at hr
      rw [← hr]
  | none =>
    cases hschema : options.validationSchema with
    | some schema =>
      cases herr : (schema E (getSchemaValidationOptions options)).error with
      | some msg =>
        simp [forRoot, henv', hdyn, hiv, hval, hschema, herr] at hr
      | none =>
        simp [forRoot, henv', hdyn, hiv, hval, hschema, herr] at hr
        rw [← hr]
    | none =>
      simp [forRoot, henv', hdyn, hiv, hval, hschema] at hr
      rw [← hr]

/-- C3 counterexample: the claim says `loadDynamicFile` never raises,
including for an unreadable path; but `fs.readFileSync` sits outside the
`try`, so an existing-but-unreadable path makes it throw instead of
returning the empty mapping. -/
theorem C3_counterexample :
    loadDynamicFile cexFs3 cexParse3 (some "cfg.json") =
      Except.error "EACCES: permission denied" ∧
    loadDynamicFile cexFs3 cexParse3 (some "cfg.json") ≠
      Except.ok (Json.obj []) := by
  constructor
  · rfl
  · intro h
    simp [loadDynamicFile, cexFs3] at h

/-- C3 amended: `loadDynamicFile` returns the empty mapping without
raising when the path is absent, when the file does not exist, and when
the JSON parse fails; but a read failure on an existing file is not
caught and propagates. -/
theorem C3_amended_never_raises (fsx : FileSys)
    (jsonParse : String → Except String Json) (p content e : String) :
    (loadDynamicFile fsx jsonParse none = Except.ok (Json.obj [])) ∧
    (fsx.existsSync p = false →
      loadDynamicFile fsx jsonParse (some p) = Except.ok (Json.obj [])) ∧
    (p ≠ "" → fsx.existsSync p = true →
      fsx.readFileSync p = Except.ok content →
      jsonParse content = Except.error e →
      loadDynamicFile fsx jsonParse (some p) = Except.ok (Json.obj [])) ∧
    (p ≠ "" → fsx.existsSync p = true →
      fsx.readFileSync p = Except.error e →
      loadDynamicFile fsx jsonParse (some p) = Except.error e) := by
  refine ⟨rfl, fun hex => ?_, fun hp hex hrd hpe => ?_, fun hp hex hrd => ?_⟩
  · simp [loadDynamicFile, hex]
  · simp [loadDynamicFile, hp, hex, hrd, hpe]
  · simp [loadDynamicFile, hp, hex, hrd]

/-- C4 counterexample: the claim says the `data` property is returned
whenever present; but `json?.data || json` tests truthiness, so for
`\x7b"data": false\x7d` the whole object is returned, not the present
`data` value. -/
theorem C4_counterexample :
    loadDynamicFile cexFs4 cexParse4 (some "cfg.json") =
      Except.ok (Json.obj [("data", Json.bool false)]) ∧
    getData (Json.obj [("data", Json.bool false)]) =
      some (Json.bool false) ∧
    Except.ok (ε := String) (Json.obj [("data", Json.bool false)]) ≠
      Except.ok (Json.bool false) := by
  refine ⟨rfl, rfl, ?_⟩
  intro h
  simp at h

/-- C4 amended: for an existing readable dynamic file parsing to `j`,
`loadDynamicFile` returns `j`'s `data` property if present and truthy;
otherwise the whole `j` if `j` is truthy; otherwise the empty mapping. -/
theorem C4_amended_data_envelope (fsx : FileSys)
    (jsonParse : String → Except String Json) (p content : String)
    (j : Json) (hp : p ≠ "") (hex : fsx.existsSync p = true)
    (hrd : fsx.readFileSync p = Except.ok content)
    (hj : jsonParse content = Except.ok j) :
    (∀ d, getData j = some d → truthy d = true →
      loadDynamicFile fsx jsonParse (some p) = Except.ok d) ∧
    (∀ d, getData j = some d → truthy d = false → truthy j = true →
      loadDynamicFile fsx jsonParse (some p) = Except.ok j) ∧
    (getData j = none → truthy j = true →
      loadDynamicFile fsx jsonParse (some p) = Except.ok j) ∧
    (getData j = none → truthy j = false →
      loadDynamicFile fsx jsonParse (some p) = Except.ok (Json.obj [])) := by
  refine ⟨fun d hd ht => ?_, fun d hd ht htj => ?_, fun hd htj => ?_,
    fun hd htj => ?_⟩
  · simp [loadDynamicFile, hp, hex, hrd, hj, hd, ht]
  · simp [loadDynamicFile, hp, hex, hrd, hj, hd, ht, htj]
  · simp [loadDynamicFile, hp, hex, hrd, hj, hd, htj]
  · simp [loadDynamicFile, hp, hex, hrd, hj, hd, htj]

/-- C7: on an `add` or `change` event, the watcher reloads the dynamic
file and shallow-merges the loaded mapping into the stored snapshot: the
snapshot after the event is the old snapshot overwritten key-by-key at
top level by the newly loaded mapping. -/
theorem C7_reload_shallow_merge (fsx : FileSys)
    (jsonParse : String → Except String Json) (host : Config) (p : String)
    (snap newcfg : Config)
    (hsnap : List.lookup VALIDATED_ENV_PROPNAME host =
      some (Json.obj snap))
    (hload : loadDynamicFile fsx jsonParse (some p) =
      Except.ok (Json.obj newcfg)) :
    onWatchEvent fsx jsonParse host (WatchEvent.add p) =
      Except.ok (setKey host VALIDATED_ENV_PROPNAME
        (Json.obj (spread snap newcfg))) ∧
    onWatchEvent fsx jsonParse host (WatchEvent.change p) =
      Except.ok (setKey host VALIDATED_ENV_PROPNAME
        (Json.obj (spread snap newcfg))) ∧
    (∀ k, List.lookup k (spread snap newcfg) =
      (List.lookup k newcfg <|> List.lookup k snap)) := by
  refine ⟨?_, ?_, fun k => lookup_spread k snap newcfg⟩ <;>
    simp [onWatchEvent, hload, hsnap, objectAssignJson, jsonFields]

/-- C8: a reload whose dynamic file no longer parses as JSON leaves the
stored snapshot (and the whole host) unchanged; a reload whose file read
fails throws and commits nothing, so the snapshot is also unchanged. -/
theorem C8_failed_reload_preserves (fsx : FileSys)
    (jsonParse : String → Except String Json) (host : Config)
    (p content e : String) (snap : Config)
    (hsnap : List.lookup VALIDATED_ENV_PROPNAME host =
      some (Json.obj snap))
    (hp : p ≠ "") (hex : fsx.existsSync p = true) :
    (fsx.readFileSync p = Except.ok content →
      jsonParse content = Except.error e →
      onWatchEvent fsx jsonParse host (WatchEvent.add p) =
        Except.ok host ∧
      onWatchEvent fsx jsonParse host (WatchEvent.change p) =
        Except.ok host) ∧
    (fsx.readFileSync p = Except.error e →
      onWatchEvent fsx jsonParse host (WatchEvent.change p) =
        Except.error e) := by
  constructor
  · intro hrd hpe
    have hload : loadDynamicFile fsx jsonParse (some p) =
        Except.ok (Json.obj []) := by
      simp [loadDynamicFile, hp, hex, hrd, hpe]
    have hmerge : objectAssignJson (Json.obj snap) (Json.obj []) =
        Except.ok (Json.obj snap) := by
      simp [objectAssignJson, jsonFields, spread_nil]
    have hset : setKey host VALIDATED_ENV_PROPNAME (Json.obj snap) = host :=
      setKey_self_eq _ _ _ hsnap
    constructor <;> simp [onWatchEvent, hload, hsnap, hmerge, hset]
  · intro hrd
    have hload : loadDynamicFile fsx jsonParse (some p) = Except.error e := by
      simp [loadDynamicFile, hp, hex, hrd]
    simp [onWatchEvent, hload]

/-- C9: the validated snapshot is produced by `forRoot` exactly when a
custom validate function or a validation schema was supplied; and when
the host lacks the reserved snapshot key, the reload callback throws a
`TypeError` (from `Object.assign(undefined, ...)`) on every `add` or
`change` event even though the file loaded fine. -/
theorem C9_reload_needs_validation (fsx : FileSys)
    (dotenvParse : String → Config) (expandFn : Config → Option Config)
    (jsonParse : String → Except String Json) (procEnv : Config)
    (options : ConfigModuleOptions) (r : ForRootResult) (host : Config)
    (p : String) (j : Json) :
    (forRoot fsx dotenvParse expandFn jsonParse procEnv options =
        Except.ok r →
      (r.validatedEnvConfig.isSome ↔
        (options.validate.isSome ∨ options.validationSchema.isSome))) ∧
    (List.lookup VALIDATED_ENV_PROPNAME host = none →
      loadDynamicFile fsx jsonParse (some p) = Except.ok j →
      onWatchEvent fsx jsonParse host (WatchEvent.add p) =
        Except.error typeErrorUndefined ∧
      onWatchEvent fsx jsonParse host (WatchEvent.change p) =
        Except.error typeErrorUndefined) := by
  constructor
  · intro hr
    cases henv : startupEnvConfig fsx dotenvParse expandFn options with
    | error e => simp [forRoot, henv] at hr
    | ok E =>
      cases hdyn : loadDynamicFile fsx jsonParse options.dynamicConfigPath with
      | error e => simp [forRoot, henv, hdyn] at hr
      | ok dj =>
        cases hval : options.validate with
        | some f =>
          cases hf : f (if options.ignoreEnvVars then E
              else mergeStartup E procEnv dj) with
          | error e => simp [forRoot, henv, hdyn, hval, hf] at hr
          | ok vc =>
            simp [forRoot, henv, hdyn, hval, hf] at hr
            rw [← hr]
            simp [hval]
        | none =>
          cases hschema : options.validationSchema with
          | some schema =>
            cases herr : (schema (if options.ignoreEnvVars then E
                else mergeStartup E procEnv dj)
                (getSchemaValidationOptions options)).error with
            | some msg => simp [forRoot, henv, hdyn, hval, hschema, herr] at hr
            | none =>
              simp [forRoot, henv, hdyn, hval, hschema, herr] at hr
              rw [← hr]
              simp [hval, hschema]
          | none =>
            simp [forRoot, henv, hdyn, hval, hschema] at hr
            rw [← hr]
            simp [hval, hschema]
  · intro hn hload
    constructor <;> simp [onWatchEvent, hload, hn]

theorem C1_witness :
    wOpts.ignoreEnvVars = false ∧
    startupEnvConfig wFs wDotenvParse wExpandFn wOpts = Except.ok wE ∧
    loadDynamicFile wFs wJsonParse wOpts.dynamicConfigPath =
      Except.ok (Json.obj wD) ∧
    forRoot wFs wDotenvParse wExpandFn wJsonParse wProcEnv wOpts =
      Except.ok wR ∧
    List.lookup "PORT" wR.config =
      (List.lookup "PORT" wD <|>
        (List.lookup "PORT" wProcEnv <|> List.lookup "PORT" wE)) :=
  ⟨rfl, rfl, rfl, rfl,
    C1_startup_merge_precedence wFs wDotenvParse wExpandFn wJsonParse
      wProcEnv wOpts wE wD wR "PORT" rfl rfl rfl rfl⟩

theorem C2_witness :
    wOpts2.expandVariables = false ∧
    loadEnvFile wFs2 wDotenvParse2 wExpandFn wOpts2 = Except.ok wCfg2 ∧
    List.lookup "K" wCfg2 =
      firstEnvDef wFs2 wDotenvParse2 (resolveEnvFilePaths wOpts2) "K" :=
  ⟨rfl, rfl,
    C2_env_file_first_wins wFs2 wDotenvParse2 wExpandFn wOpts2 wCfg2 "K"
      rfl rfl⟩

theorem C3_witness :
    loadDynamicFile wFs3 wParse3 (some "absent.json") =
      Except.ok (Json.obj []) ∧
    loadDynamicFile wFs3 wParse3 (some "good.json") =
      Except.ok (Json.obj []) ∧
    loadDynamicFile wFs3 wParse3 (some "bad.json") =
      Except.error "EACCES" :=
  ⟨(C3_amended_never_raises wFs3 wParse3 "absent.json" "x" "x").2.1 rfl,
   (C3_amended_never_raises wFs3 wParse3 "good.json" "notjson"
     "SyntaxError: Unexpected token").2.2.1 (by decide) rfl rfl rfl,
   (C3_amended_never_raises wFs3 wParse3 "bad.json" "x"
     "EACCES").2.2.2 (by decide) rfl rfl⟩

theorem C4_witness :
    loadDynamicFile wFs4 wParse4 (some "wrapped.json") =
      Except.ok (Json.obj [("PORT", Json.num 8888)]) ∧
    loadDynamicFile wFs4 wParse4 (some "nullfile.json") =
      Except.ok (Json.obj []) :=
  ⟨(C4_amended_data_envelope wFs4 wParse4 "wrapped.json" "wrapped"
      (Json.obj [("data", Json.obj [("PORT", Json.num 8888)])])
      (by decide) rfl rfl rfl).1
    (Json.obj [("PORT", Json.num 8888)]) rfl rfl,
   (C4_amended_data_envelope wFs4 wParse4 "nullfile.json" "nulltext"
      Json.null (by decide) rfl rfl rfl).2.2.2 rfl rfl⟩

theorem C5_witness :
    List.lookup "A" (assignVariablesToProcess wCfg5 wEnv5) =
      some (Json.str "envA") ∧
    List.lookup "B" (assignVariablesToProcess wCfg5 wEnv5) =
      some (Json.str "cfgB") :=
  ⟨(C5_env_always_wins wCfg5 wEnv5 "A").1 (Json.str "envA") rfl,
   (C5_env_always_wins wCfg5 wEnv5 "B").2 rfl (Json.str "cfgB") rfl⟩

theorem C6_witness :
    getSchemaValidationOptions wOpts6 =
      { abortEarly := some false, allowUnknown := some true } ∧
    forRoot wFs wDotenvParse wExpandFn wJsonParse wProcEnv wOpts6 =
      Except.error "Config validation error: X is required" :=
  ⟨(C6_validation_gate wFs wDotenvParse wExpandFn wJsonParse wProcEnv
      wOpts6 wSchema wE (Json.obj wD) "X is required"
      rfl rfl rfl rfl rfl rfl).1,
   (C6_validation_gate wFs wDotenvParse wExpandFn wJsonParse wProcEnv
      wOpts6 wSchema wE (Json.obj wD) "X is required"
      rfl rfl rfl rfl rfl rfl).2 rfl⟩

theorem C7_witness :
    onWatchEvent wFs7 wJsonParse7 wHost (WatchEvent.change "dyn.json") =
      Except.ok (setKey wHost VALIDATED_ENV_PROPNAME
        (Json.obj (spread [("PORT", Json.num 8888)]
          [("PORT", Json.num 9999)]))) ∧
    List.lookup "PORT"
        (spread [("PORT", Json.num 8888)] [("PORT", Json.num 9999)]) =
      (List.lookup "PORT" [("PORT", Json.num 9999)] <|>
        List.lookup "PORT" [("PORT", Json.num 8888)]) :=
  ⟨(C7_reload_shallow_merge wFs7 wJsonParse7 wHost "dyn.json"
      [("PORT", Json.num 8888)] [("PORT", Json.num 9999)] rfl rfl).2.1,
   (C7_reload_shallow_merge wFs7 wJsonParse7 wHost "dyn.json"
      [("PORT", Json.num 8888)] [("PORT", Json.num 9999)] rfl rfl).2.2
     "PORT"⟩

theorem C8_witness :
    onWatchEvent wFs8 wJsonParse8 wHost (WatchEvent.change "dyn.json") =
      Except.ok wHost ∧
    onWatchEvent wFs8 wJsonParse8 wHost (WatchEvent.change "locked.json") =
      Except.error "EISDIR" :=
  ⟨((C8_failed_reload_preserves wFs8 wJsonParse8 wHost "dyn.json"
      "garbage" "SyntaxError" [("PORT", Json.num 8888)]
      rfl (by decide) rfl).1 rfl rfl).2,
   (C8_failed_reload_preserves wFs8 wJsonParse8 wHost "locked.json"
      "x" "EISDIR" [("PORT", Json.num 8888)]
      rfl (by decide) rfl).2 rfl⟩

theorem C9_witness :
    (wR.validatedEnvConfig.isSome ↔
      (wOpts.validate.isSome ∨ wOpts.validationSchema.isSome)) ∧
    onWatchEvent wFs7 wJsonParse7 wHost9 (WatchEvent.add "dyn.json") =
      Except.error typeErrorUndefined :=
  ⟨(C9_reload_needs_validation wFs wDotenvParse wExpandFn wJsonParse
      wProcEnv wOpts wR wHost9 "dyn.json" (Json.obj wD)).1 rfl,
   ((C9_reload_needs_validation wFs7 wDotenvParse wExpandFn wJsonParse7
      wProcEnv wOpts wR wHost9 "dyn.json"
      (Json.obj [("PORT", Json.num 9999)])).2 rfl rfl).1⟩

theorem C10_witness :
    wOpts10.ignoreEnvVars = true ∧
    wOpts10.ignoreEnvFile = false ∧
    loadEnvFile wFs wDotenvParse wExpandFn wOpts10 = Except.ok wE ∧
    loadDynamicFile wFs wJsonParse wOpts10.dynamicConfigPath =
      Except.ok (Json.obj wD) ∧
    forRoot wFs wDotenvParse wExpandFn wJsonParse wProcEnv wOpts10 =
      Except.ok wR10 ∧
    wR10.config = wE :=
  ⟨rfl, rfl, rfl, rfl, rfl,
    C10_ignore_env_vars wFs wDotenvParse wExpandFn wJsonParse wProcEnv
      wOpts10 wE (Json.obj wD) wR10 rfl rfl rfl rfl rfl⟩

end NestConfig
